import Mathlib

/-!
Shallow embedding of the Shruti-1 synthesis engine core, translated from
src/hardware/shruti/synthesis_engine.cc.

Conventions used throughout:

* uint8 quantities are `Nat` values; reads of uint8 storage cells are taken
  modulo 256, mirroring the 8-bit store;
* int8 / int16 quantities are `Int`; all expressions proved about below stay
  inside the int16 range under the documented parameter ranges, so plain `Int`
  arithmetic coincides with the C semantics there;
* arithmetic right shift of a signed value (`>> 15`, `>> 8`) is floor division
  by the corresponding power of two, which for a positive divisor is Lean's
  `Int` division;
* lookup tables owned by the excluded resources layer are passed as `Nat → Nat`
  arguments;
* declarations coming from repository headers that are not present under src/
  (op.h, patch.h, shruti.h, the Lfo class, the MIDI constants) carry a doc
  comment starting with `Modelled from the spec:` and follow the spec's words.
-/

namespace Shruti

/-- Modelled from the spec: op.h `Clip` — modulation accumulators saturate to a
documented range instead of wrapping (spec section 7, Overflow). -/
def clip (x lo hi : Int) : Int := max lo (min hi x)

/-- Modelled from the spec: op.h `MulScale8` — unsigned 8-bit multiply keeping
the high byte of the 16-bit product. -/
def mulScale8 (a b : Nat) : Nat := a * b / 256

/-- Modelled from the spec: op.h `SignedMulScale8` — signed-by-unsigned
multiply, result right-shifted 8 bits (arithmetic shift, i.e. floor). -/
def signedMulScale8 (a : Int) (b : Nat) : Int := a * b / 256

/-- Modelled from the spec: op.h `SignedSignedMulScale8` — signed 8-bit by
signed 8-bit multiply keeping the high byte of the product. -/
def signedSignedMulScale8 (a b : Int) : Int := a * b / 256

/-- Modelled from the spec: op.h `Mix(a, b, balance)` — the weighted blend used
for the oscillator crossfade, the sub-oscillator/noise blending and the
multiplicative VCA chain (spec sections 4.1 and 4.4). Balance 0 returns `a`
unchanged (spec section 8 requires the blend at weight 0 to be the identity)
and the output moves toward `b` as the balance grows. Arguments are bytes; the
balance is reduced to its low byte exactly as the uint8 argument of the C
helper is. -/
def mix8 (a b balance : Nat) : Nat :=
  (a * (256 - balance % 256) + b * (balance % 256)) / 256

/-- Modelled from the spec: reinterpretation of a byte as a signed int8 value,
used where uint8 oscillator samples are passed to the signed op.h helpers. -/
def int8OfByte (x : Nat) : Int :=
  if x % 256 < 128 then (x % 256 : Int) else (x % 256 : Int) - 256

/-- Modelled from the spec: the global modulation source ids from
synthesis_engine.h (spec section 3 lists the global sources; the two LFOs come
first, which the relative-modulation test in Voice::Control relies on). -/
def MOD_SRC_LFO_1 : Nat := 0

/-- Modelled from the spec: global source id of the second LFO. -/
def MOD_SRC_LFO_2 : Nat := 1

/-- Modelled from the spec: global source id of the sequencer step value. -/
def MOD_SRC_SEQ : Nat := 2

/-- Modelled from the spec: global source id of the sequencer gate flag. -/
def MOD_SRC_STEP : Nat := 3

/-- Modelled from the spec: global source id of the modulation wheel. -/
def MOD_SRC_WHEEL : Nat := 4

/-- Modelled from the spec: global source id of the pitch-bend position. -/
def MOD_SRC_PITCH_BEND : Nat := 5

/-- Modelled from the spec: global source id of the first CV input. -/
def MOD_SRC_CV_1 : Nat := 6

/-- Modelled from the spec: global source id of the second CV input. -/
def MOD_SRC_CV_2 : Nat := 7

/-- Modelled from the spec: global source id of the first assignable pot. -/
def MOD_SRC_ASSIGNABLE_1 : Nat := 8

/-- Modelled from the spec: global source id of the second assignable pot. -/
def MOD_SRC_ASSIGNABLE_2 : Nat := 9

/-- Modelled from the spec: global source id of the noise generator state. -/
def MOD_SRC_RANDOM : Nat := 10

/-- Modelled from the spec: the number of global modulation sources; ids below
this threshold are read from the engine's source array, ids at or above it
from the voice-local array (spec section 4.1, step 2). -/
def kNumGlobalModulationSources : Nat := 11

/-- Modelled from the spec: voice source id of envelope 1. -/
def MOD_SRC_ENV_1 : Nat := 11

/-- Modelled from the spec: voice source id of envelope 2. -/
def MOD_SRC_ENV_2 : Nat := 12

/-- Modelled from the spec: voice source id of the note velocity. -/
def MOD_SRC_VELOCITY : Nat := 13

/-- Modelled from the spec: voice source id of the current pitch. -/
def MOD_SRC_NOTE : Nat := 14

/-- Modelled from the spec: voice source id of the gate flag. -/
def MOD_SRC_GATE : Nat := 15

/-- Modelled from the spec: number of modulation-matrix entries persisted in a
patch (patch.h). The in-memory matrix of the default patch in
synthesis_engine.cc holds 14 entries, and the spec (sections 3 and 9) states
that the engine evaluates exactly one more entry than are persisted, so 13
entries are saved. -/
def kSavedModulationMatrixSize : Nat := 13

/-- Modelled from the spec: number of modulation-matrix entries evaluated by
Voice::Control — one more than are persisted (spec sections 3 and 9), matching
the 14 in-memory entries of the default patch. -/
def kModulationMatrixSize : Nat := 14

/-- Modulation destinations of synthesis_engine.h, as an enumerated type (the
numeric ids only index the destination arrays, so the enumeration order is
irrelevant to the properties proved here). -/
inductive ModDst
  | filterCutoff
  | filterResonance
  | vca
  | pwm1
  | pwm2
  | vco1
  | vco2
  | vco12fine
  | mixBalance
  | mixNoise
  | mixSubOsc
deriving DecidableEq

/-- One modulation-matrix entry: source id, destination, signed amount
(spec section 3: amount is an int8 in [-63, 63]). -/
structure Modulation where
  source : Nat
  destination : ModDst
  amount : Int

/-- The patch parameters read by the destination-resolution part of
Voice::Control (synthesis_engine.cc lines 464-536). `filter_env` and
`filter_lfo` are the signed amounts of the two hardcoded filter modulations. -/
structure PatchParams where
  filter_cutoff : Nat
  osc_parameter_1 : Nat
  osc_parameter_2 : Nat
  mix_balance : Nat
  mix_noise : Nat
  mix_sub_osc : Nat
  filter_resonance : Nat
  filter_env : Int
  filter_lfo : Int

/-- Inputs of one Voice::Control destination-resolution pass: the patch
parameters, the engine's global source array, the voice-local source array and
the in-memory modulation matrix. -/
structure ModEnv where
  p : PatchParams
  globalSrc : Nat → Nat
  voiceSrc : Nat → Nat
  mm : Nat → Modulation

/-- The working state of the destination resolution: the 14-bit additive
accumulators (the local `dst` array) and the multiplicative VCA byte
(`modulation_destinations_[MOD_DST_VCA]`). -/
structure DstState where
  dst : ModDst → Int
  vca : Nat

/-- Initialization of the accumulators (synthesis_engine.cc lines 464-474):
each additive destination is loaded with its base parameter scaled into the
0-16383 working range (`<< 7` or `<< 8`), the pitch destinations with the
centre value 8192, and the VCA with full level 255. The `dst` slot of the VCA
is never read or written by the source and is fixed at 0. -/
def initDst (p : PatchParams) : DstState where
  vca := 255
  dst := fun d =>
    match d with
    | .filterCutoff => (p.filter_cutoff : Int) * 128
    | .pwm1 => (p.osc_parameter_1 : Int) * 128
    | .pwm2 => (p.osc_parameter_2 : Int) * 128
    | .vco1 => 8192
    | .vco2 => 8192
    | .vco12fine => 8192
    | .mixBalance => (p.mix_balance : Int) * 256
    | .mixNoise => (p.mix_noise : Int) * 256
    | .mixSubOsc => (p.mix_sub_osc : Int) * 256
    | .filterResonance => (p.filter_resonance : Int) * 256
    | .vca => 0

/-- Resolution of a source value (synthesis_engine.cc lines 494-500): ids below
the global threshold are read from the engine's array, the rest from the
voice-local array at `id - threshold`. The cells are uint8. -/
def sourceValue (e : ModEnv) (s : Nat) : Nat :=
  if s < kNumGlobalModulationSources then e.globalSrc s % 256
  else e.voiceSrc (s - kNumGlobalModulationSources) % 256

/-- The amount actually used for entry `i` (synthesis_engine.cc lines 483-488):
the entry at index `kSavedModulationMatrixSize - 1` has its amount rescaled by
the modulation wheel (signed-by-unsigned multiply, right-shifted 8 bits); every
other entry uses its stored amount unchanged. -/
def effectiveAmount (e : ModEnv) (i : Nat) : Int :=
  if i = kSavedModulationMatrixSize - 1 then
    signedMulScale8 (e.mm i).amount (e.globalSrc MOD_SRC_WHEEL % 256)
  else (e.mm i).amount

/-- Application of one modulation with an already-resolved source value
(synthesis_engine.cc lines 501-521). Additive destinations accumulate
`amount * source_value`, subtract the centering bias `amount << 7` for the
relative sources (the LFOs, pitch bend and the note) and clamp to [0, 16383].
The VCA destination is multiplicative: a negative amount is normalized by
inverting the source value, and the byte accumulator is blended with
`Mix(255, source_value, amount << 2)`. -/
def applyModulation (st : DstState) (source source_value : Nat)
    (destination : ModDst) (amount : Int) : DstState :=
  if destination ≠ ModDst.vca then
    let m1 := st.dst destination + amount * (source_value : Int)
    let m2 :=
      if source ≤ MOD_SRC_LFO_2 ∨ source = MOD_SRC_PITCH_BEND ∨
          source = MOD_SRC_NOTE then
        m1 - amount * 128
      else m1
    { st with dst := Function.update st.dst destination (clip m2 0 16383) }
  else
    let amount2 := if amount < 0 then -amount else amount
    let sv2 := if amount < 0 then 255 - source_value else source_value
    { st with vca := mulScale8 st.vca (mix8 255 sv2 ((amount2 * 4).toNat % 256)) }

/-- Evaluation of matrix entry `i` (synthesis_engine.cc lines 477-522): an
entry with amount 0 is skipped, otherwise its effective amount is computed,
its source value resolved and the modulation applied. -/
def applyEntry (e : ModEnv) (st : DstState) (i : Nat) : DstState :=
  if (e.mm i).amount = 0 then st
  else
    applyModulation st (e.mm i).source (sourceValue e (e.mm i).source)
      (e.mm i).destination (effectiveAmount e i)

/-- The evaluation order of the matrix: indices 0 to
`kModulationMatrixSize - 1` in stored order. -/
def matrixIndices : List Nat := List.range kModulationMatrixSize

/-- The full modulation-matrix loop of Voice::Control. -/
def evalMatrix (e : ModEnv) : DstState :=
  List.foldl (applyEntry e) (initDst e.p) matrixIndices

/-- The two hardcoded filter modulations (synthesis_engine.cc lines 523-536):
envelope 1 scaled by `filter_env` and LFO 2 scaled by `filter_lfo`
(bias-centered), each clamped to [0, 16383]. -/
def fixedFilterMod (e : ModEnv) (st : DstState) : DstState :=
  let env1 := e.voiceSrc (MOD_SRC_ENV_1 - kNumGlobalModulationSources) % 256
  let lfo2 := e.globalSrc MOD_SRC_LFO_2 % 256
  let c1 := clip (st.dst ModDst.filterCutoff + e.p.filter_env * env1) 0 16383
  let c2 := clip (c1 + e.p.filter_lfo * lfo2 - e.p.filter_lfo * 128) 0 16383
  { st with dst := Function.update st.dst ModDst.filterCutoff c2 }

/-- The accumulator state at the end of the destination-resolution pass of
Voice::Control (matrix evaluation followed by the hardcoded filter
modulations). -/
def voiceControlState (e : ModEnv) : DstState :=
  fixedFilterMod e (evalMatrix e)

/-- Down-scaling into the destination's native range
(synthesis_engine.cc lines 538-551): the stored bytes of
`modulation_destinations_` for the cutoff, resonance, the two pulse widths and
the three mix levels; the VCA byte is stored as accumulated. The three pitch
destinations are not stored — they are consumed at full 14-bit resolution by
the oscillator pitch assembly (lines 569-571) — so they are returned
undownscaled. -/
def resolveDst (st : DstState) : ModDst → Nat := fun d =>
  match d with
  | .vca => st.vca % 256
  | .filterCutoff => (st.dst ModDst.filterCutoff).toNat >>> 6 % 256
  | .filterResonance => (st.dst ModDst.filterResonance).toNat >>> 6 % 256
  | .pwm1 => (st.dst ModDst.pwm1).toNat >>> 7 % 256
  | .pwm2 => (st.dst ModDst.pwm2).toNat >>> 7 % 256
  | .mixBalance => (st.dst ModDst.mixBalance).toNat >>> 6 % 256
  | .mixNoise => (st.dst ModDst.mixNoise).toNat >>> 8 % 256
  | .mixSubOsc => (st.dst ModDst.mixSubOsc).toNat >>> 7 % 256
  | .vco1 => (st.dst ModDst.vco1).toNat
  | .vco2 => (st.dst ModDst.vco2).toNat
  | .vco12fine => (st.dst ModDst.vco12fine).toNat

/-- The resolved modulation destinations produced by one Voice::Control pass. -/
def voiceControlResolved (e : ModEnv) : ModDst → Nat :=
  resolveDst (voiceControlState e)

/-- Formalization of claim C2 as stated: the matrix evaluation processes one
more entry than are persisted; the synthesized final entry takes its source and
destination from the last persisted entry's fields and its effective amount is
the last persisted entry's amount rescaled by the wheel; and no other entry's
amount is wheel-rescaled. -/
def claimC2Prop : Prop :=
  kModulationMatrixSize = kSavedModulationMatrixSize + 1 ∧
  (∀ (e : ModEnv) (st : DstState),
    applyEntry e st (kModulationMatrixSize - 1) =
      (if (e.mm (kSavedModulationMatrixSize - 1)).amount = 0 then st
       else
         applyModulation st (e.mm (kSavedModulationMatrixSize - 1)).source
           (sourceValue e (e.mm (kSavedModulationMatrixSize - 1)).source)
           (e.mm (kSavedModulationMatrixSize - 1)).destination
           (signedMulScale8 (e.mm (kSavedModulationMatrixSize - 1)).amount
             (e.globalSrc MOD_SRC_WHEEL % 256)))) ∧
  (∀ (e : ModEnv) (i : Nat), i ≠ kModulationMatrixSize - 1 →
    effectiveAmount e i = (e.mm i).amount)

/-- The pitch state of a voice: current value, target and per-control-tick
increment (all int16 in the source). -/
structure PitchState where
  value : Int
  target : Int
  increment : Int

/-- The slide-increment computation of Voice::Trigger
(synthesis_engine.cc lines 419-430): `(delta * portamento_increment) >> 15`,
with a zero result forced to -1 or +1 in the direction of travel.
`portamentoIncrement` is the uint16 value looked up from the portamento table
at the patch's portamento-time parameter. -/
def triggerIncrement (delta : Int) (portamentoIncrement : Nat) : Int :=
  let inc := delta * (portamentoIncrement : Int) / 32768
  if inc = 0 then (if delta < 0 then -1 else 1) else inc

/-- The pitch part of Voice::Trigger (synthesis_engine.cc lines 410-430): the
target is the note scaled by `<< 7` plus the resolved scale/raga offset
(`ragaOffset` is 0 when no scale is selected; the offset table lives in the
excluded resources layer). A current pitch at the power-on sentinel 0 snaps
directly to the target. This code runs for legato and non-legato triggers
alike — the legato flag only gates the envelope and oscillator-phase resets. -/
def triggerPitch (note : Nat) (ragaOffset : Int) (portamentoIncrement : Nat)
    (currentPitch : Int) : PitchState :=
  let target : Int := (note : Int) * 128 + ragaOffset
  let value := if currentPitch = 0 then target else currentPitch
  ⟨value, target, triggerIncrement (target - value) portamentoIncrement⟩

/-- The per-control-tick pitch step of Voice::Control
(synthesis_engine.cc lines 442-446) on a (value, increment) pair: add the
increment, then snap to the target and zero the increment when the sign of the
increment disagrees with the side of the target the new value lies on
(the source's XOR test). -/
def pitchStep (target : Int) : Int × Int → Int × Int := fun s =>
  let v := s.1 + s.2
  if Bool.xor (decide (0 < s.2)) (decide (v < target)) then (target, 0)
  else (v, s.2)

/-- Modelled from the spec: one octave in pitch units — 12 semitones scaled by
`<< 7` (shruti.h `kOctave`; spec section 4.2). -/
def kOctave : Int := 12 * 128

/-- Modelled from the spec: the lowest pitch value covered by the oscillator
increment table (shruti.h `kPitchTableStart`); the wrap law proved below holds
for any value of this constant. -/
def kPitchTableStart : Int := 116 * 128

/-- The octave-lifting loop of Voice::Control
(synthesis_engine.cc lines 582-586): add one octave to the table-relative
pitch until it is nonnegative, counting the octaves added. -/
def liftOctaves (ref : Int) : Int × Nat :=
  if ref < 0 then
    let r := liftOctaves (ref + kOctave)
    (r.1, r.2 + 1)
  else (ref, 0)
termination_by (-ref).toNat
decreasing_by
  simp [kOctave]
  omega

/-- The pitch-table resolution of Voice::Control
(synthesis_engine.cc lines 580-591): lift the table-relative pitch into the
table window, look up the uint16 phase increment at `ref_pitch >> 1`, then
right-shift the increment by the number of octaves added. -/
def resolveOscIncrement (lut : Nat → Nat) (pitch : Int) : Nat :=
  let ref := pitch - kPitchTableStart
  let rn := liftOctaves ref
  (lut (rn.1.toNat / 2) % 65536) >>> rn.2

/-- The LFO-synchronization state of the engine: the reset cadence
(`num_lfo_reset_steps_`, a uint8), the bitmask of synced LFOs
(`lfo_to_reset_`), the step counter (`lfo_reset_counter_`) and the two LFOs'
increments and 16-bit phase accumulators. -/
structure LfoState where
  numResetSteps : Nat
  toReset : Nat
  counter : Nat
  inc1 : Nat
  inc2 : Nat
  phase1 : Nat
  phase2 : Nat

/-- The reset-cadence computation of
SynthesisEngine::UpdateModulationIncrements (synthesis_engine.cc
lines 289-301) for the two LFOs: a product of `(1 + rate)` accumulated over
the synced LFOs (rates below 16), each store truncated to the uint8 field. -/
def numResetStepsCalc (r1 r2 : Nat) : Nat :=
  let n0 : Nat := 0
  let n1 := if r1 < 16 then ((if n0 = 0 then 1 else n0) * (1 + r1)) % 256 else n0
  let n2 := if r2 < 16 then ((if n1 = 0 then 1 else n1) * (1 + r2)) % 256 else n1
  n2

/-- The synced-LFO bitmask of SynthesisEngine::UpdateModulationIncrements
(`lfo_to_reset_ |= _BV(i)` for each rate below 16). -/
def lfoToResetCalc (r1 r2 : Nat) : Nat :=
  (if r1 < 16 then 1 else 0) + (if r2 < 16 then 2 else 0)

/-- The per-LFO increment of SynthesisEngine::UpdateModulationIncrements
(synthesis_engine.cc lines 292-305): rates below 16 derive the increment from
the collaborator's estimated beat duration, others read the free-running
lookup table; the result is a uint16. -/
def lfoIncrementCalc (lut : Nat → Nat) (beat r : Nat) : Nat :=
  if r < 16 then 65536 / (beat * (1 + r) / 4) % 65536 else lut (r - 16) % 65536

/-- SynthesisEngine::UpdateModulationIncrements restricted to the LFO state
(synthesis_engine.cc lines 287-316): recompute the reset cadence, the synced
bitmask and both increments. Lfo::Update stores the new increment and waveform
without touching the phase (the phase is cleared only by Lfo::Reset — spec
section 4.3); the envelope reconfiguration in the same source function touches
only envelope state and is modelled with the engine dispatch below. -/
def updateLfoIncrements (lut : Nat → Nat) (beat r1 r2 : Nat)
    (st : LfoState) : LfoState :=
  { st with
    numResetSteps := numResetStepsCalc r1 r2
    toReset := lfoToResetCalc r1 r2
    inc1 := lfoIncrementCalc lut beat r1
    inc2 := lfoIncrementCalc lut beat r2 }

/-- The LFO-synchronization part of SynthesisEngine::Control
(synthesis_engine.cc lines 319-346): every control tick advances both phase
accumulators (Lfo::Increment); when the sequencer/arpeggiator collaborator
reports a step advance the uint8 counter increments, and on reaching the reset
cadence the increments are recomputed, the phases of the synced LFOs are
forced back to zero and the counter restarts. -/
def engineControlLfoSync (lut : Nat → Nat) (beat r1 r2 : Nat)
    (stepAdvanced : Bool) (st : LfoState) : LfoState :=
  let st1 := { st with
    phase1 := (st.phase1 + st.inc1) % 65536
    phase2 := (st.phase2 + st.inc2) % 65536 }
  if stepAdvanced then
    let c := (st1.counter + 1) % 256
    if c = st1.numResetSteps then
      let st2 := updateLfoIncrements lut beat r1 r2 st1
      let st3 := { st2 with
        phase1 := if st2.toReset % 2 = 1 then 0 else st2.phase1
        phase2 := if st2.toReset / 2 % 2 = 1 then 0 else st2.phase2 }
      { st3 with counter := 0 }
    else { st1 with counter := c }
  else st1

/-- Modelled from the spec: oscillator-1 option value SUM (the default
crossfade mix; editor.cc gives the option range SUM to XOR). -/
def OP_SUM : Nat := 0

/-- Modelled from the spec: oscillator-1 option value SYNC (hard sync). -/
def OP_SYNC : Nat := 1

/-- Modelled from the spec: oscillator-1 option value RING_MOD. -/
def OP_RING_MOD : Nat := 2

/-- Modelled from the spec: oscillator-1 option value XOR. -/
def OP_XOR : Nat := 3

/-- Modelled from the spec: the id of the high-cost vowel waveform for which
Voice::Audio skips the sub-oscillator and noise blending (spec section 4.4). -/
def WAVEFORM_VOWEL : Nat := 6

/-- Inputs of one Voice::Audio pass: the dead flag, the oscillator-1 option
and shape, the four samples rendered by the oscillator objects (owned by the
excluded oscillator layer) and the resolved mix destinations. -/
structure AudioCfg where
  dead : Bool
  oscOption1 : Nat
  oscShape1 : Nat
  osc1 : Nat
  osc2 : Nat
  subOsc : Nat
  noise : Nat
  mixBalance : Nat
  mixSubOsc : Nat
  mixNoise : Nat

/-- Voice::Audio (synthesis_engine.cc lines 605-654): a dead voice
short-circuits to the mid-scale value 128; otherwise the two oscillator
samples are combined according to the option (ring modulation, XOR plus the
mix-balance offset, or the crossfade blend), and unless oscillator 1 uses the
vowel waveform the sub-oscillator and noise samples are blended in. The
hard-sync phase reset in the crossfade branch mutates only oscillator-2 phase
state (affecting future samples), not the returned sample, and is left to the
excluded oscillator layer. -/
def voiceAudio (c : AudioCfg) : Nat :=
  if c.dead then 128
  else
    let o1 := c.osc1 % 256
    let o2 := c.osc2 % 256
    let mix :=
      if c.oscOption1 = OP_RING_MOD then
        (signedSignedMulScale8 (int8OfByte (o1 + 128)) (int8OfByte (o2 + 128))
          + 128).toNat % 256
      else if c.oscOption1 = OP_XOR then
        (Nat.xor o1 o2 + c.mixBalance % 256) % 256
      else mix8 o1 o2 c.mixBalance
    if c.oscShape1 ≠ WAVEFORM_VOWEL then
      mix8 (mix8 mix (c.subOsc % 256) c.mixSubOsc) (c.noise % 256) c.mixNoise
    else mix

/-- Modelled from the spec: parameter index of the first oscillator shape —
the parameter index space is the patch's field order starting after the
`keep_me_at_the_top` marker byte, reconstructed from the default patch image
in synthesis_engine.cc (lines 67-98) and the field uses in the source. -/
def PRM_OSC_SHAPE_1 : Nat := 0

/-- Modelled from the spec: parameter index of the second oscillator shape
(the upper bound of the oscillator-algorithm recomputation range in
SynthesisEngine::SetParameter). -/
def PRM_OSC_SHAPE_2 : Nat := 1

/-- Modelled from the spec: parameter index of the sub-oscillator shape. -/
def PRM_MIX_SUB_OSC_SHAPE : Nat := 11

/-- Modelled from the spec: parameter index of the filter cutoff. -/
def PRM_FILTER_CUTOFF : Nat := 12

/-- Modelled from the spec: parameter index of the filter resonance. -/
def PRM_FILTER_RESONANCE : Nat := 13

/-- Modelled from the spec: parameter index of envelope 1's attack time (the
lower bound of the envelope/LFO recomputation range in SetParameter). -/
def PRM_ENV_ATTACK_1 : Nat := 16

/-- Modelled from the spec: parameter index of envelope 2's attack time. -/
def PRM_ENV_ATTACK_2 : Nat := 17

/-- Modelled from the spec: parameter index of envelope 2's release time. -/
def PRM_ENV_RELEASE_2 : Nat := 23

/-- Modelled from the spec: parameter index of LFO 1's rate. -/
def PRM_LFO_RATE_1 : Nat := 26

/-- Modelled from the spec: parameter index of LFO 2's rate (the upper bound
of the envelope/LFO recomputation range in SetParameter). -/
def PRM_LFO_RATE_2 : Nat := 27

/-- Modelled from the spec: parameter index of the arpeggiator tempo (the
first field after the 14 three-byte matrix entries: 28 + 42). -/
def PRM_ARP_TEMPO : Nat := 70

/-- Modelled from the spec: parameter index of the arpeggiator octave range. -/
def PRM_ARP_OCTAVE : Nat := 71

/-- Modelled from the spec: parameter index of the arpeggiator pattern. -/
def PRM_ARP_PATTERN : Nat := 72

/-- Modelled from the spec: parameter index of the arpeggiator swing. -/
def PRM_ARP_SWING : Nat := 73

/-- Modelled from the spec: parameter index of the portamento time. -/
def PRM_KBD_PORTAMENTO : Nat := 84

/-- Modelled from the spec: parameter index of the arpeggiator pattern size
(the trailing field of the patch, after the name). -/
def PRM_ARP_PATTERN_SIZE : Nat := 94

/-- Modelled from the spec: sizeof(Patch) — the marker byte plus 95 parameter
bytes of the field layout reconstructed from the default patch image. -/
def sizeofPatch : Nat := 96

/-- Modelled from the spec: the power-on value of the NRPN parameter number
(`nrpn_parameter_number_ = 0xff`, synthesis_engine.cc line 50). -/
def nrpnResetValue : Nat := 0xff

/-- Modelled from the spec: MIDI controller number of the modulation wheel
MSB (the standard MIDI assignment used by the excluded MIDI layer). -/
def kModulationWheelMsb : Nat := 1

/-- Modelled from the spec: MIDI controller number of the portamento time
MSB. -/
def kPortamentoTimeMsb : Nat := 5

/-- Modelled from the spec: MIDI controller number of data entry MSB. -/
def kDataEntryMsb : Nat := 6

/-- Modelled from the spec: MIDI controller number of the harmonic intensity
(resonance alias). -/
def kHarmonicIntensity : Nat := 71

/-- Modelled from the spec: MIDI controller number of the release time. -/
def kRelease : Nat := 72

/-- Modelled from the spec: MIDI controller number of the attack time. -/
def kAttack : Nat := 73

/-- Modelled from the spec: MIDI controller number of the brightness (cutoff
alias). -/
def kBrightness : Nat := 74

/-- Modelled from the spec: MIDI controller number of NRPN MSB. -/
def kNrpnMsb : Nat := 99

/-- The four time parameters an envelope was last configured with
(Envelope::Update arguments). -/
structure EnvParams where
  attack : Nat
  decay : Nat
  sustain : Nat
  release : Nat

/-- The engine state touched by SynthesisEngine::SetParameter and
SynthesisEngine::ControlChange: the patch parameter bytes (indexed by
parameter id — `base[parameter_index + 1]` skips the marker byte), the NRPN
parameter number, the wheel source cell, the collaborator's estimated beat
duration (read-only here), the sequencer/arpeggiator collaborator's copies of
the five forwarded arpeggiator settings, the LFO-sync state, the two
envelope configurations and the three selected oscillator algorithms. -/
structure EngineState where
  params : Nat → Nat
  nrpn : Nat
  wheel : Nat
  beat : Nat
  ctrlTempo : Nat
  ctrlOctaves : Nat
  ctrlPattern : Nat
  ctrlSwing : Nat
  ctrlPatternSize : Nat
  lfo : LfoState
  env1 : EnvParams
  env2 : EnvParams
  osc1Algo : Nat
  osc2Algo : Nat
  subAlgo : Nat

/-- SynthesisEngine::UpdateModulationIncrements at the engine level: the LFO
part reads the two rate parameters, and the envelope part reloads both
envelopes' time constants from the patch (synthesis_engine.cc lines 287-316). -/
def updateEngineIncrements (lut : Nat → Nat) (st : EngineState) : EngineState :=
  { st with
    lfo := updateLfoIncrements lut st.beat (st.params PRM_LFO_RATE_1)
      (st.params PRM_LFO_RATE_2) st.lfo
    env1 := ⟨st.params 16, st.params 18, st.params 20, st.params 22⟩
    env2 := ⟨st.params 17, st.params 19, st.params 21, st.params 23⟩ }

/-- SynthesisEngine::UpdateOscillatorAlgorithms
(synthesis_engine.cc lines 280-284): reselect the rendering algorithm of each
oscillator from its shape parameter. -/
def updateOscAlgorithms (st : EngineState) : EngineState :=
  { st with
    osc1Algo := st.params PRM_OSC_SHAPE_1
    osc2Algo := st.params PRM_OSC_SHAPE_2
    subAlgo := st.params PRM_MIX_SUB_OSC_SHAPE }

/-- SynthesisEngine::SetParameter (synthesis_engine.cc lines 244-277): store
the value into the patch's index-th field, recompute the modulation increments
for the envelope/LFO parameter range, reselect oscillator algorithms for the
shape parameters, and forward the five arpeggiator settings to the
sequencer/arpeggiator collaborator (tempo changes also recompute the
modulation increments). -/
def setParameter (lut : Nat → Nat) (idx val : Nat) (st : EngineState) :
    EngineState :=
  let st1 := { st with params := Function.update st.params idx val }
  let st2 :=
    if PRM_ENV_ATTACK_1 ≤ idx ∧ idx ≤ PRM_LFO_RATE_2 then
      updateEngineIncrements lut st1
    else st1
  let st3 :=
    if idx ≤ PRM_OSC_SHAPE_2 ∨ idx = PRM_MIX_SUB_OSC_SHAPE then
      updateOscAlgorithms st2
    else st2
  if idx = PRM_ARP_TEMPO then
    updateEngineIncrements lut { st3 with ctrlTempo := val }
  else if idx = PRM_ARP_OCTAVE then { st3 with ctrlOctaves := val }
  else if idx = PRM_ARP_PATTERN then { st3 with ctrlPattern := val }
  else if idx = PRM_ARP_SWING then { st3 with ctrlSwing := val }
  else if idx = PRM_ARP_PATTERN_SIZE then { st3 with ctrlPatternSize := val }
  else st3

/-- SynthesisEngine::ControlChange (synthesis_engine.cc lines 130-160): the
switch over the fixed set of controller numbers. Data entry writes the
parameter selected by the stored NRPN number only when that number is strictly
below sizeof(Patch) - 1; the direct aliases write their patch fields without
side effects. -/
def controlChange (lut : Nat → Nat) (st : EngineState) (controller value : Nat) :
    EngineState :=
  if controller = kModulationWheelMsb then
    { st with wheel := value * 2 % 256 }
  else if controller = kDataEntryMsb then
    (if st.nrpn < sizeofPatch - 1 then setParameter lut st.nrpn value st else st)
  else if controller = kPortamentoTimeMsb then
    { st with params := Function.update st.params PRM_KBD_PORTAMENTO value }
  else if controller = kRelease then
    { st with params := Function.update st.params PRM_ENV_RELEASE_2 value }
  else if controller = kAttack then
    { st with params := Function.update st.params PRM_ENV_ATTACK_2 value }
  else if controller = kHarmonicIntensity then
    { st with params := Function.update st.params PRM_FILTER_RESONANCE value }
  else if controller = kBrightness then
    { st with params := Function.update st.params PRM_FILTER_CUTOFF value }
  else if controller = kNrpnMsb then { st with nrpn := value }
  else st

/-- Concrete patch parameters used by the witnesses: the default patch's
values with both hardcoded filter-modulation amounts set to zero. -/
def patchA : PatchParams :=
  { filter_cutoff := 110, osc_parameter_1 := 0, osc_parameter_2 := 32
    mix_balance := 24, mix_noise := 0, mix_sub_osc := 0, filter_resonance := 0
    filter_env := 0, filter_lfo := 0 }

/-- Concrete all-zero-amount modulation matrix. -/
def mmZero : Nat → Modulation := fun _ => ⟨MOD_SRC_LFO_1, ModDst.vco1, 0⟩

/-- Concrete evaluation environment with an all-zero matrix. -/
def envA : ModEnv :=
  { p := patchA, globalSrc := fun _ => 200, voiceSrc := fun _ => 150
    mm := mmZero }

/-- Concrete matrix whose last persisted entry (index 12) and extra in-memory
entry (index 13) carry different nonzero amounts and different fields. -/
def mmB : Nat → Modulation := fun i =>
  if i = 12 then ⟨MOD_SRC_ENV_2, ModDst.filterCutoff, 40⟩
  else if i = 13 then ⟨MOD_SRC_VELOCITY, ModDst.pwm1, 20⟩
  else ⟨MOD_SRC_LFO_1, ModDst.vco1, 0⟩

/-- Concrete evaluation environment exercising the wheel rescale, with the
wheel at full deflection. -/
def envB : ModEnv :=
  { p := patchA
    globalSrc := fun s => if s = MOD_SRC_WHEEL then 255 else 200
    voiceSrc := fun _ => 200, mm := mmB }

/-- Concrete audio configuration for the XOR-mix witness: the spec's oscillator
samples, mix balance resolved to 0 and the sub/noise levels at their base
zero. -/
def cfgC8 : AudioCfg :=
  { dead := false, oscOption1 := OP_XOR, oscShape1 := 2
    osc1 := 178, osc2 := 108, subOsc := 57, noise := 99
    mixBalance := 0, mixSubOsc := 0, mixNoise := 0 }

/-- Concrete all-zero LFO state. -/
def lfoZero : LfoState := ⟨0, 0, 0, 0, 0, 0, 0⟩

/-- Concrete zeroed envelope configuration. -/
def envParamsZero : EnvParams := ⟨0, 0, 0, 0⟩

/-- Concrete engine state at the NRPN power-on value. -/
def engineStA : EngineState :=
  { params := fun _ => 0, nrpn := nrpnResetValue, wheel := 0, beat := 120
    ctrlTempo := 120, ctrlOctaves := 0, ctrlPattern := 0, ctrlSwing := 0
    ctrlPatternSize := 16, lfo := lfoZero, env1 := envParamsZero
    env2 := envParamsZero, osc1Algo := 0, osc2Algo := 0, subAlgo := 0 }

/-- Concrete trivial lookup table. -/
def lutZero : Nat → Nat := fun _ => 0

/-- Helper: a matrix entry with amount 0 leaves the accumulator state
unchanged (the `continue` at synthesis_engine.cc lines 479-481). -/
theorem applyEntry_zero_amount (e : ModEnv) (st : DstState) (i : Nat)
    (h : (e.mm i).amount = 0) : applyEntry e st i = st := by
  simp [applyEntry, h]

/-- Helper: skipping an amount-0 entry anywhere in the evaluation order does
not change the fold over the matrix. -/
theorem foldl_skip_zero_amount (e : ModEnv) (i : Nat)
    (h : (e.mm i).amount = 0) :
    ∀ (l : List Nat) (st : DstState),
      List.foldl (applyEntry e) st (l.filter (fun j => j ≠ i)) =
        List.foldl (applyEntry e) st l := by
  intro l
  induction l with
  | nil => intro st; rfl
  | cons a l ih =>
    intro st
    rw [List.filter_cons]
    by_cases ha : a = i
    · subst ha
      rw [if_neg (by simp)]
      rw [List.foldl_cons, applyEntry_zero_amount e st a h]
      exact ih st
    · rw [if_pos (by simp [ha])]
      rw [List.foldl_cons, List.foldl_cons]
      exact ih (applyEntry e st a)

/-- C1: a modulation-matrix entry whose amount is 0 has no effect on the
destination resolution of Voice::Control — the evaluation with that entry
skipped equals the full evaluation — and when every entry's amount is 0 (and
the two non-matrix hardcoded filter amounts are 0, with the cutoff parameter
in its documented 7-bit range), every additive destination resolves to its
base parameter value scaled into the 14-bit working range and down-scaled to
its native range, the pitch accumulators stay at their centre base 8192, and
the amplitude destination stays at full level 255. -/
theorem c1_zero_amount_entry_inert (e : ModEnv) (st : DstState) (i : Nat) :
    ((e.mm i).amount = 0 →
      List.foldl (applyEntry e) st (matrixIndices.filter (fun j => j ≠ i)) =
        List.foldl (applyEntry e) st matrixIndices) ∧
    ((∀ j, (e.mm j).amount = 0) → e.p.filter_env = 0 → e.p.filter_lfo = 0 →
      e.p.filter_cutoff ≤ 127 →
        voiceControlResolved e = resolveDst (initDst e.p) ∧
        voiceControlResolved e ModDst.vca = 255 ∧
        (voiceControlState e).dst ModDst.vco1 = 8192 ∧
        (voiceControlState e).dst ModDst.vco2 = 8192 ∧
        (voiceControlState e).dst ModDst.vco12fine = 8192) := by
  constructor
  · intro h
    exact foldl_skip_zero_amount e i h matrixIndices st
  · intro hall henv hlfo hcut
    have hfold : ∀ (l : List Nat) (s : DstState),
        List.foldl (applyEntry e) s l = s := by
      intro l
      induction l with
      | nil => intro s; rfl
      | cons a l ih =>
        intro s
        rw [List.foldl_cons, applyEntry_zero_amount e s a (hall a)]
        exact ih s
    have hmat : evalMatrix e = initDst e.p := hfold matrixIndices (initDst e.p)
    have hb0 : (0 : Int) ≤ (e.p.filter_cutoff : Int) * 128 := by positivity
    have hb1 : (e.p.filter_cutoff : Int) * 128 ≤ 16383 := by
      have : (e.p.filter_cutoff : Int) ≤ 127 := by exact_mod_cast hcut
      omega
    have hclip : clip ((e.p.filter_cutoff : Int) * 128) 0 16383 =
        (e.p.filter_cutoff : Int) * 128 := by
      unfold clip
      rw [min_eq_right hb1, max_eq_right hb0]
    have h1 : (initDst e.p).dst ModDst.filterCutoff =
        (e.p.filter_cutoff : Int) * 128 := rfl
    have hfix : fixedFilterMod e (initDst e.p) = initDst e.p := by
      unfold fixedFilterMod
      rw [henv, hlfo, h1]
      simp only [zero_mul, add_zero, sub_zero]
      rw [hclip, hclip, ← h1, Function.update_eq_self]
    have hstate : voiceControlState e = initDst e.p := by
      unfold voiceControlState
      rw [hmat, hfix]
    refine ⟨?_, ?_, ?_, ?_, ?_⟩
    · unfold voiceControlResolved
      rw [hstate]
    · unfold voiceControlResolved
      rw [hstate]
      rfl
    · rw [hstate]
      rfl
    · rw [hstate]
      rfl
    · rw [hstate]
      rfl

/-- Witness for C1 at the concrete all-zero-amount environment `envA`,
skipping entry 3. -/
theorem c1_zero_amount_entry_inert_witness :
    (List.foldl (applyEntry envA) (initDst patchA)
        (matrixIndices.filter (fun j => j ≠ 3)) =
      List.foldl (applyEntry envA) (initDst patchA) matrixIndices) ∧
    (voiceControlResolved envA = resolveDst (initDst envA.p) ∧
      voiceControlResolved envA ModDst.vca = 255 ∧
      (voiceControlState envA).dst ModDst.vco1 = 8192 ∧
      (voiceControlState envA).dst ModDst.vco2 = 8192 ∧
      (voiceControlState envA).dst ModDst.vco12fine = 8192) := by
  have h := c1_zero_amount_entry_inert envA (initDst patchA) 3
  exact ⟨h.1 rfl, h.2 (fun j => rfl) rfl rfl (by decide)⟩

/-- Counterexample to C2 as stated: in the environment `envB`, entry 12
(the last persisted entry, `kSavedModulationMatrixSize - 1`) is evaluated with
its amount 40 wheel-rescaled to 39, contradicting the claim that no entry
other than the synthesized final one is wheel-rescaled. -/
theorem c2_wheel_entry_counterexample : ¬ claimC2Prop := by
  intro h
  have h3 := h.2.2 envB 12 (by decide)
  have h39 : effectiveAmount envB 12 = 39 := by decide
  have h40 : (envB.mm 12).amount = 40 := by decide
  rw [h3, h40] at h39
  exact absurd h39 (by decide)

/-- C2 (amended): the evaluation processes one more entry than are persisted,
but the wheel rescale applies to the last persisted entry (index
`kSavedModulationMatrixSize - 1`), whose own amount is multiplied by the wheel
value and right-shifted 8 bits; every other entry — including the extra final
entry, which is evaluated with its own in-memory source, destination and
amount — uses its stored amount unchanged. -/
theorem c2_amended_wheel_rescale :
    kModulationMatrixSize = kSavedModulationMatrixSize + 1 ∧
    (∀ e : ModEnv,
      effectiveAmount e (kSavedModulationMatrixSize - 1) =
        signedMulScale8 (e.mm (kSavedModulationMatrixSize - 1)).amount
          (e.globalSrc MOD_SRC_WHEEL % 256)) ∧
    (∀ (e : ModEnv) (i : Nat), i ≠ kSavedModulationMatrixSize - 1 →
      effectiveAmount e i = (e.mm i).amount) ∧
    (∀ (e : ModEnv) (st : DstState),
      applyEntry e st (kModulationMatrixSize - 1) =
        if (e.mm (kModulationMatrixSize - 1)).amount = 0 then st
        else
          applyModulation st (e.mm (kModulationMatrixSize - 1)).source
            (sourceValue e (e.mm (kModulationMatrixSize - 1)).source)
            (e.mm (kModulationMatrixSize - 1)).destination
            ((e.mm (kModulationMatrixSize - 1)).amount)) := by
  refine ⟨rfl, fun e => ?_, fun e i hi => ?_, fun e st => ?_⟩
  · unfold effectiveAmount
    rw [if_pos rfl]
  · unfold effectiveAmount
    rw [if_neg hi]
  · have hne : effectiveAmount e (kModulationMatrixSize - 1) =
        (e.mm (kModulationMatrixSize - 1)).amount := by
      unfold effectiveAmount
      rw [if_neg (by decide)]
    unfold applyEntry
    rw [hne]

/-- Witness for C2 (amended): in `envB` the extra final entry at index 13 is
evaluated with its own stored amount, not a wheel-rescaled one. -/
theorem c2_amended_wheel_rescale_witness :
    effectiveAmount envB 13 = (envB.mm 13).amount :=
  c2_amended_wheel_rescale.2.2.1 envB 13 (by decide)

/-- C3: amplitude (VCA) sign symmetry — for an entry targeting the amplitude
destination, evaluating with amount `a > 0` and source value `v` produces the
same resolved amplitude as evaluating with amount `-a` and source value
`255 - v`, because a negative amount is normalized by negating it and
inverting the source value before the multiplicative blend. -/
theorem c3_vca_sign_symmetry (st : DstState) (source : Nat) (a : Int) (v : Nat)
    (ha : 0 < a) (ha2 : a ≤ 127) (hv : v ≤ 255) :
    (applyModulation st source v ModDst.vca a).vca =
      (applyModulation st source (255 - v) ModDst.vca (-a)).vca := by
  have h1 : ¬ a < 0 := by omega
  have h2 : -a < 0 := by omega
  have h3 : 255 - (255 - v) = v := by omega
  simp [applyModulation, h1, h2, h3]

/-- Witness for C3 at amount 16 and source value 100. -/
theorem c3_vca_sign_symmetry_witness :
    (applyModulation (initDst patchA) 9 100 ModDst.vca 16).vca =
      (applyModulation (initDst patchA) 9 (255 - 100) ModDst.vca (-16)).vca :=
  c3_vca_sign_symmetry (initDst patchA) 9 16 100 (by decide) (by decide)
    (by decide)

/-- C5: portamento first-note snap — a voice whose current pitch is at the
power-on sentinel 0 has its pitch set to the computed target immediately by
Voice::Trigger, for every note, raga offset and portamento-time value. -/
theorem c5_first_note_pitch_snap (note : Nat) (ragaOffset : Int)
    (portamentoIncrement : Nat) :
    (triggerPitch note ragaOffset portamentoIncrement 0).value =
      (triggerPitch note ragaOffset portamentoIncrement 0).target := by
  simp [triggerPitch]

/-- Helper: the arrived pitch state is a fixed point of the control-tick
step. -/
theorem pitchStep_fixed (t : Int) : pitchStep t (t, 0) = (t, 0) := by
  simp [pitchStep]

/-- Helper: the arrived pitch state stays fixed under iteration. -/
theorem pitchStep_iterate_fixed (t : Int) (m : Nat) :
    (pitchStep t)^[m] (t, 0) = (t, 0) := by
  induction m with
  | zero => rfl
  | succ m ih =>
    rw [Function.iterate_succ_apply, pitchStep_fixed]
    exact ih

/-- Helper: an upward slide (positive increment, value below target) reaches
the target exactly in finitely many control ticks. -/
theorem pitchStep_converges_up (t : Int) :
    ∀ (k : Nat) (v inc : Int), 0 < inc → v < t → (t - v).toNat ≤ k →
      ∃ n, 0 < n ∧ (pitchStep t)^[n] (v, inc) = (t, 0) := by
  intro k
  induction k with
  | zero =>
    intro v inc hinc hv hk
    exact absurd hk (by omega)
  | succ k ih =>
    intro v inc hinc hv hk
    by_cases hcross : v + inc < t
    · have hstep : pitchStep t (v, inc) = (v + inc, inc) := by
        simp [pitchStep, hinc, hcross]
      obtain ⟨n, hn, hiter⟩ := ih (v + inc) inc hinc hcross (by omega)
      refine ⟨n + 1, by omega, ?_⟩
      rw [Function.iterate_succ_apply, hstep]
      exact hiter
    · have hstep : pitchStep t (v, inc) = (t, 0) := by
        simp [pitchStep, hinc, hcross]
      refine ⟨1, by omega, ?_⟩
      rw [Function.iterate_one]
      exact hstep

/-- Helper: a downward slide (negative increment, value above target) reaches
the target exactly in finitely many control ticks. -/
theorem pitchStep_converges_down (t : Int) :
    ∀ (k : Nat) (v inc : Int), inc < 0 → t < v → (v - t).toNat ≤ k →
      ∃ n, 0 < n ∧ (pitchStep t)^[n] (v, inc) = (t, 0) := by
  intro k
  induction k with
  | zero =>
    intro v inc hinc hv hk
    exact absurd hk (by omega)
  | succ k ih =>
    intro v inc hinc hv hk
    have h0 : ¬ (0 : Int) < inc := by omega
    by_cases hlow : v + inc < t
    · have hstep : pitchStep t (v, inc) = (t, 0) := by
        simp [pitchStep, h0, hlow]
      refine ⟨1, by omega, ?_⟩
      rw [Function.iterate_one]
      exact hstep
    · by_cases heq : v + inc = t
      · have hstep1 : pitchStep t (v, inc) = (t, inc) := by
          simp [pitchStep, h0, hlow, heq]
        have hlt : t + inc < t := by omega
        have hstep2 : pitchStep t (t, inc) = (t, 0) := by
          simp [pitchStep, h0, hlt]
        refine ⟨2, by omega, ?_⟩
        have h2 : (pitchStep t)^[2] (v, inc) =
            pitchStep t (pitchStep t (v, inc)) := rfl
        rw [h2, hstep1, hstep2]
      · have hstep : pitchStep t (v, inc) = (v + inc, inc) := by
          simp [pitchStep, h0, hlow]
        obtain ⟨n, hn, hiter⟩ := ih (v + inc) inc hinc (by omega) (by omega)
        refine ⟨n + 1, by omega, ?_⟩
        rw [Function.iterate_succ_apply, hstep]
        exact hiter

/-- C4: the slide increment computed by Voice::Trigger for a nonzero delta is
forced to +1 or -1 in the direction of travel whenever the scaled product
rounds to zero, and the sequence of Voice::Control pitch steps starting from
that increment reaches the target pitch exactly in finitely many steps and
stays there with a zero increment — the slide never stalls. -/
theorem c4_slide_never_stalls (v t : Int) (L : Nat) (hne : v ≠ t) :
    ((t - v) * (L : Int) / 32768 = 0 →
      triggerIncrement (t - v) L = if t - v < 0 then -1 else 1) ∧
    ∃ n, 0 < n ∧ (pitchStep t)^[n] (v, triggerIncrement (t - v) L) = (t, 0) ∧
      ∀ m, n ≤ m →
        (pitchStep t)^[m] (v, triggerIncrement (t - v) L) = (t, 0) := by
  have key : ∀ d : Int, (0 < d → 0 < triggerIncrement d L) ∧
      (d < 0 → triggerIncrement d L < 0) := by
    intro d
    simp only [triggerIncrement]
    constructor
    · intro hd
      have hp0 : 0 ≤ d * (L : Int) := mul_nonneg (by omega) (by positivity)
      generalize d * (L : Int) = p at hp0
      have hq : 0 ≤ p / 32768 := by omega
      by_cases hz : p / 32768 = 0
      · rw [if_pos hz, if_neg (by omega)]
        omega
      · rw [if_neg hz]
        omega
    · intro hd
      have hp0 : d * (L : Int) ≤ 0 := by
        have h2 : (0 : Int) ≤ (L : Int) := by positivity
        have := mul_le_mul_of_nonneg_right (show d ≤ 0 by omega) h2
        simpa using this
      generalize d * (L : Int) = p at hp0
      by_cases hz : p / 32768 = 0
      · rw [if_pos hz, if_pos hd]
        omega
      · rw [if_neg hz]
        omega
  constructor
  · intro h
    simp only [triggerIncrement]
    rw [if_pos h]
  · have main : ∃ n, 0 < n ∧
        (pitchStep t)^[n] (v, triggerIncrement (t - v) L) = (t, 0) := by
      rcases lt_or_gt_of_ne hne with hv | hv
      · exact pitchStep_converges_up t (t - v).toNat v _
          ((key (t - v)).1 (by omega)) hv le_rfl
      · exact pitchStep_converges_down t (v - t).toNat v _
          ((key (t - v)).2 (by omega)) hv le_rfl
    obtain ⟨n, hn, hiter⟩ := main
    refine ⟨n, hn, hiter, fun m hm => ?_⟩
    rw [show m = (m - n) + n by omega, Function.iterate_add_apply, hiter,
      pitchStep_iterate_fixed]

/-- Witness for C4 at the concrete slide from pitch 100 toward 1000 with the
largest portamento table value. -/
theorem c4_slide_never_stalls_witness :
    (((1000 : Int) - 100) * ((65535 : Nat) : Int) / 32768 = 0 →
      triggerIncrement ((1000 : Int) - 100) 65535 =
        if (1000 : Int) - 100 < 0 then -1 else 1) ∧
    ∃ n, 0 < n ∧
      (pitchStep 1000)^[n] (100, triggerIncrement ((1000 : Int) - 100) 65535) =
        (1000, 0) ∧
      ∀ m, n ≤ m →
        (pitchStep 1000)^[m]
            (100, triggerIncrement ((1000 : Int) - 100) 65535) = (1000, 0) :=
  c4_slide_never_stalls 100 1000 65535 (by decide)

/-- Helper: characterization of the octave-lifting loop — started below one
octave, it adds whole octaves until the result lands in [0, kOctave), and the
returned count is the number of octaves added. -/
theorem liftOctaves_spec :
    ∀ (k : Nat) (ref : Int), (-ref).toNat ≤ k → ref < kOctave →
      (liftOctaves ref).1 =
          ref + ((liftOctaves ref).2 : Int) * kOctave ∧
        0 ≤ (liftOctaves ref).1 ∧ (liftOctaves ref).1 < kOctave := by
  intro k
  induction k with
  | zero =>
    intro ref hk h
    have hoct : kOctave = 1536 := rfl
    have hnn : ¬ ref < 0 := by omega
    rw [liftOctaves, if_neg hnn]
    refine ⟨by simp, by omega, h⟩
  | succ k ih =>
    intro ref hk h
    have hoct : kOctave = 1536 := rfl
    by_cases hr : ref < 0
    · have hk2 : (-(ref + kOctave)).toNat ≤ k := by omega
      have h2 : ref + kOctave < kOctave := by omega
      obtain ⟨e1, e2, e3⟩ := ih (ref + kOctave) hk2 h2
      rw [liftOctaves, if_pos hr]
      refine ⟨?_, e2, e3⟩
      show (liftOctaves (ref + kOctave)).1 =
        ref + (((liftOctaves (ref + kOctave)).2 + 1 : Nat) : Int) * kOctave
      rw [e1]
      push_cast
      ring
    · rw [liftOctaves, if_neg hr]
      refine ⟨by simp, by omega, h⟩

/-- C6: pitch-table wrap law — for an assembled pitch below the table's start,
the resolution of Voice::Control (lift by whole octaves into the table window,
look up, right-shift by the octave count) produces exactly the lookup at the
corresponding in-window value right-shifted by that octave count, for the
unique octave count that brings the value into the window. -/
theorem c6_pitch_wrap_law (lut : Nat → Nat) (pitch r9 : Int) (n : Nat)
    (hlow : pitch - kPitchTableStart < 0)
    (hrep : r9 = pitch - kPitchTableStart + (n : Int) * kOctave)
    (h0 : 0 ≤ r9) (h1 : r9 < kOctave) :
    resolveOscIncrement lut pitch = (lut (r9.toNat / 2) % 65536) >>> n := by
  have hoct : kOctave = 1536 := rfl
  obtain ⟨e1, e2, e3⟩ := liftOctaves_spec (-(pitch - kPitchTableStart)).toNat
    (pitch - kPitchTableStart) le_rfl (by omega)
  rw [hoct] at e1 e3 hrep h1
  have hn : (liftOctaves (pitch - kPitchTableStart)).2 = n := by omega
  have hr : (liftOctaves (pitch - kPitchTableStart)).1 = r9 := by omega
  simp only [resolveOscIncrement]
  rw [hr, hn]

/-- Witness for C6 at the assembled pitch 3000 units below the table start:
two octave lifts land at in-window value 72 and the looked-up increment is
right-shifted by 2. -/
theorem c6_pitch_wrap_law_witness :
    resolveOscIncrement (fun i => i + 40000) (kPitchTableStart - 3000) =
      ((fun i => i + 40000) ((72 : Int).toNat / 2) % 65536) >>> 2 :=
  c6_pitch_wrap_law (fun i => i + 40000) (kPitchTableStart - 3000) 72 2
    (by decide) (by decide) (by decide) (by decide)

/-- Helper: an advancing control tick whose incremented counter has not
reached the cadence of 32 advances the phases and the counter only. -/
theorem lfoSync_tick_no_reset (lut : Nat → Nat) (beat : Nat) (st : LfoState)
    (hnum : st.numResetSteps = 32) (hc : st.counter < 31) :
    engineControlLfoSync lut beat 3 7 true st =
      { st with
        phase1 := (st.phase1 + st.inc1) % 65536
        phase2 := (st.phase2 + st.inc2) % 65536
        counter := st.counter + 1 } := by
  have h1 : (st.counter + 1) % 256 = st.counter + 1 := by omega
  simp only [engineControlLfoSync, if_true, h1, hnum]
  rw [if_neg (by omega)]

/-- Helper: the advancing control tick that brings the counter to the cadence
of 32 recomputes the increments, resets both synced phases and restarts the
counter. -/
theorem lfoSync_tick_reset (lut : Nat → Nat) (beat : Nat) (st : LfoState)
    (hnum : st.numResetSteps = 32) (hc : st.counter = 31) :
    engineControlLfoSync lut beat 3 7 true st =
      ⟨32, 3, 0, lfoIncrementCalc lut beat 3, lfoIncrementCalc lut beat 7,
        0, 0⟩ := by
  simp only [engineControlLfoSync, if_true, hnum, hc]
  simp [updateLfoIncrements, numResetStepsCalc, lfoToResetCalc]

/-- Helper: with both LFOs synced at rates 3 and 7, the counter tracks the
number of step advances and the cadence and bitmask stay fixed for the first
31 advancing ticks. -/
theorem lfoSync_counter_inv (lut : Nat → Nat) (beat p1 p2 : Nat) :
    ∀ k, k ≤ 31 →
      ∃ q1 q2, (engineControlLfoSync lut beat 3 7 true)^[k]
          (updateLfoIncrements lut beat 3 7 ⟨0, 0, 0, 0, 0, p1, p2⟩) =
        ⟨32, 3, k, lfoIncrementCalc lut beat 3, lfoIncrementCalc lut beat 7,
          q1, q2⟩ := by
  intro k
  induction k with
  | zero =>
    intro _
    exact ⟨p1, p2, rfl⟩
  | succ k ih =>
    intro hk
    obtain ⟨q1, q2, hstate⟩ := ih (by omega)
    rw [Function.iterate_succ_apply', hstate,
      lfoSync_tick_no_reset lut beat _ rfl (by simp only []; omega)]
    exact ⟨(q1 + lfoIncrementCalc lut beat 3) % 65536,
      (q2 + lfoIncrementCalc lut beat 7) % 65536, rfl⟩

/-- Counterexample to C7 as stated: at rates 15 and 15 the computed cadence is
truncated by the uint8 store to 0, which differs from the product 256. -/
theorem c7_cadence_byte_counterexample :
    numResetStepsCalc 15 15 ≠ (1 + 15) * (1 + 15) := by decide

/-- C7 (amended): for rates below the sync threshold 16 the reset cadence
equals the product of (1 + rate) over both synced LFOs reduced modulo 256 (the
uint8 store); at rates 3 and 7 this is 4 * 8 = 32, and starting from a zero
counter, the counter tracks the first 31 step-advance notifications without a
reset and the 32nd notification resets both synced LFO phases to zero. -/
theorem c7_amended_lfo_resync :
    (∀ r1 r2, r1 < 16 → r2 < 16 →
      numResetStepsCalc r1 r2 = (1 + r1) * (1 + r2) % 256) ∧
    numResetStepsCalc 3 7 = 32 ∧
    (∀ (lut : Nat → Nat) (beat p1 p2 : Nat),
      (∀ k, k ≤ 31 →
        ((engineControlLfoSync lut beat 3 7 true)^[k]
            (updateLfoIncrements lut beat 3 7
              ⟨0, 0, 0, 0, 0, p1, p2⟩)).counter = k) ∧
      ((engineControlLfoSync lut beat 3 7 true)^[32]
          (updateLfoIncrements lut beat 3 7
            ⟨0, 0, 0, 0, 0, p1, p2⟩)).phase1 = 0 ∧
      ((engineControlLfoSync lut beat 3 7 true)^[32]
          (updateLfoIncrements lut beat 3 7
            ⟨0, 0, 0, 0, 0, p1, p2⟩)).phase2 = 0) := by
  refine ⟨?_, by decide, fun lut beat p1 p2 => ?_⟩
  · intro r1 r2 h1 h2
    have e1 : (1 + r1) % 256 = 1 + r1 := by omega
    simp [numResetStepsCalc, h1, h2, e1]
  · obtain ⟨q1, q2, hstate⟩ := lfoSync_counter_inv lut beat p1 p2 31 (by omega)
    have hfinal : (engineControlLfoSync lut beat 3 7 true)^[32]
        (updateLfoIncrements lut beat 3 7 ⟨0, 0, 0, 0, 0, p1, p2⟩) =
        ⟨32, 3, 0, lfoIncrementCalc lut beat 3, lfoIncrementCalc lut beat 7,
          0, 0⟩ := by
      rw [show (32 : Nat) = 31 + 1 from rfl, Function.iterate_succ_apply',
        hstate, lfoSync_tick_reset lut beat _ rfl rfl]
    refine ⟨fun k hk => ?_, by rw [hfinal], by rw [hfinal]⟩
    obtain ⟨w1, w2, hst⟩ := lfoSync_counter_inv lut beat p1 p2 k hk
    rw [hst]

/-- Witness for C7 (amended) at rates 3 and 7, beat duration 120 and initial
phases 11 and 22. -/
theorem c7_amended_lfo_resync_witness :
    numResetStepsCalc 3 7 = (1 + 3) * (1 + 7) % 256 ∧
    ((engineControlLfoSync lutZero 120 3 7 true)^[32]
        (updateLfoIncrements lutZero 120 3 7
          ⟨0, 0, 0, 0, 0, 11, 22⟩)).phase1 = 0 ∧
    ((engineControlLfoSync lutZero 120 3 7 true)^[32]
        (updateLfoIncrements lutZero 120 3 7
          ⟨0, 0, 0, 0, 0, 11, 22⟩)).phase2 = 0 :=
  ⟨c7_amended_lfo_resync.1 3 7 (by decide) (by decide),
    (c7_amended_lfo_resync.2.2 lutZero 120 11 22).2.1,
    (c7_amended_lfo_resync.2.2 lutZero 120 11 22).2.2⟩

/-- Helper: the blend at a weight whose low byte is zero is the identity on
its first argument. -/
theorem mix8_zero_balance (a b w : Nat) (h : w % 256 = 0) : mix8 a b w = a := by
  unfold mix8
  rw [h]
  simp

/-- C8: XOR oscillator mix — on a non-dead voice with oscillator 1's option
set to XOR and the sub-oscillator and noise levels resolved to zero,
Voice::Audio outputs the bitwise XOR of the two oscillator samples plus the
resolved mix-balance offset (as bytes). -/
theorem c8_xor_mix (c : AudioCfg) (hd : c.dead = false)
    (ho : c.oscOption1 = OP_XOR) (hs : c.mixSubOsc % 256 = 0)
    (hn : c.mixNoise % 256 = 0) :
    voiceAudio c =
      (Nat.xor (c.osc1 % 256) (c.osc2 % 256) + c.mixBalance % 256) % 256 := by
  simp only [voiceAudio, hd, ho, if_false, Bool.false_eq_true]
  rw [if_neg (show OP_XOR ≠ OP_RING_MOD from by decide)]
  rw [if_pos trivial]
  by_cases hsh : c.oscShape1 ≠ WAVEFORM_VOWEL
  · rw [if_pos hsh, mix8_zero_balance _ _ _ hs, mix8_zero_balance _ _ _ hn]
  · rw [if_neg hsh]

/-- Witness for C8 at the spec's samples 0b10110010 and 0b01101100 with
mix-balance 0: the output is their exact bitwise XOR, 0b11011110 = 222. -/
theorem c8_xor_mix_witness : voiceAudio cfgC8 = 222 := by
  rw [c8_xor_mix cfgC8 rfl rfl rfl rfl]
  decide

/-- C9: parameter dispatch — SetParameter stores the value into the patch's
index-th field for every index and value, and the five arpeggiator settings
(tempo, octave range, pattern, swing, pattern size) are additionally forwarded
to the sequencer/arpeggiator collaborator's copies. -/
theorem c9_set_parameter_dispatch (lut : Nat → Nat) (st : EngineState)
    (idx val : Nat) :
    ((setParameter lut idx val st).params idx = val) ∧
    (idx = PRM_ARP_TEMPO → (setParameter lut idx val st).ctrlTempo = val) ∧
    (idx = PRM_ARP_OCTAVE → (setParameter lut idx val st).ctrlOctaves = val) ∧
    (idx = PRM_ARP_PATTERN → (setParameter lut idx val st).ctrlPattern = val) ∧
    (idx = PRM_ARP_SWING → (setParameter lut idx val st).ctrlSwing = val) ∧
    (idx = PRM_ARP_PATTERN_SIZE →
      (setParameter lut idx val st).ctrlPatternSize = val) := by
  refine ⟨?_, ?_, ?_, ?_, ?_, ?_⟩
  · simp only [setParameter, updateEngineIncrements, updateOscAlgorithms]
    split_ifs <;> simp [Function.update_same]
  · intro h
    subst h
    simp [setParameter, updateEngineIncrements, updateOscAlgorithms,
      PRM_ARP_TEMPO, PRM_ENV_ATTACK_1, PRM_LFO_RATE_2, PRM_OSC_SHAPE_2,
      PRM_MIX_SUB_OSC_SHAPE]
  · intro h
    subst h
    simp [setParameter, updateEngineIncrements, updateOscAlgorithms,
      PRM_ARP_TEMPO, PRM_ARP_OCTAVE, PRM_ENV_ATTACK_1, PRM_LFO_RATE_2,
      PRM_OSC_SHAPE_2, PRM_MIX_SUB_OSC_SHAPE]
  · intro h
    subst h
    simp [setParameter, updateEngineIncrements, updateOscAlgorithms,
      PRM_ARP_TEMPO, PRM_ARP_OCTAVE, PRM_ARP_PATTERN, PRM_ENV_ATTACK_1,
      PRM_LFO_RATE_2, PRM_OSC_SHAPE_2, PRM_MIX_SUB_OSC_SHAPE]
  · intro h
    subst h
    simp [setParameter, updateEngineIncrements, updateOscAlgorithms,
      PRM_ARP_TEMPO, PRM_ARP_OCTAVE, PRM_ARP_PATTERN, PRM_ARP_SWING,
      PRM_ENV_ATTACK_1, PRM_LFO_RATE_2, PRM_OSC_SHAPE_2,
      PRM_MIX_SUB_OSC_SHAPE]
  · intro h
    subst h
    simp [setParameter, updateEngineIncrements, updateOscAlgorithms,
      PRM_ARP_TEMPO, PRM_ARP_OCTAVE, PRM_ARP_PATTERN, PRM_ARP_SWING,
      PRM_ARP_PATTERN_SIZE, PRM_ENV_ATTACK_1, PRM_LFO_RATE_2,
      PRM_OSC_SHAPE_2, PRM_MIX_SUB_OSC_SHAPE]

/-- Witness for C9 at the tempo index: the value is stored in the patch and
forwarded to the collaborator's tempo copy. -/
theorem c9_set_parameter_dispatch_witness :
    ((setParameter lutZero PRM_ARP_TEMPO 99 engineStA).params
        PRM_ARP_TEMPO = 99) ∧
    (setParameter lutZero PRM_ARP_TEMPO 99 engineStA).ctrlTempo = 99 :=
  ⟨(c9_set_parameter_dispatch lutZero engineStA PRM_ARP_TEMPO 99).1,
    (c9_set_parameter_dispatch lutZero engineStA PRM_ARP_TEMPO 99).2.1 rfl⟩

/-- C10: NRPN data-entry guard — a data-entry ControlChange writes a parameter
only when the stored NRPN number is strictly below sizeof(Patch) - 1; since
the number powers on at 0xff, every data-entry message received before any
NRPN selection leaves the whole engine state unchanged. -/
theorem c10_nrpn_data_entry_guard :
    nrpnResetValue = 255 ∧
    (∀ (lut : Nat → Nat) (st : EngineState) (v : Nat),
      sizeofPatch - 1 ≤ st.nrpn →
        controlChange lut st kDataEntryMsb v = st) ∧
    (∀ (lut : Nat → Nat) (st : EngineState) (v : Nat),
      st.nrpn = nrpnResetValue →
        controlChange lut st kDataEntryMsb v = st) := by
  have hguard : ∀ (lut : Nat → Nat) (st : EngineState) (v : Nat),
      ¬ st.nrpn < sizeofPatch - 1 →
        controlChange lut st kDataEntryMsb v = st := by
    intro lut st v h
    unfold controlChange
    rw [if_neg (by decide), if_pos rfl, if_neg h]
  refine ⟨rfl, fun lut st v h => hguard lut st v (by omega),
    fun lut st v h => hguard lut st v ?_⟩
  rw [h]
  decide

/-- Witness for C10 at the power-on engine state. -/
theorem c10_nrpn_data_entry_guard_witness :
    controlChange lutZero engineStA kDataEntryMsb 42 = engineStA :=
  c10_nrpn_data_entry_guard.2.2 lutZero engineStA 42 rfl

end Shruti
